import Mathlib

/-!
Shallow embedding of the ticketing service (src/scripts/main.py and
src/scripts/model.py): the ticket lifecycle state machine, the creation
endpoints, and the `TicketStatus.from_string` helper.  The persistent store
is modelled as association lists keyed by integer identifiers; each HTTP
handler becomes a pure function from a store and its path parameters to a
response paired with the updated store.
-/

/-- The four ticket states of `TicketStatus` (model.py:7-11). -/
inductive TicketStatus where
  | PURCHASED
  | RESERVED
  | CANCELED
  | USED
deriving DecidableEq

/-- A user record (model.py:21-24); the store-assigned id is the key in the store. -/
structure User where
  username : String
  password : String
deriving DecidableEq

/-- An event record (model.py:27-30).  The source stores `price` as a float;
no claim involves price arithmetic, so it is carried as an integer field. -/
structure Event where
  name : String
  price : Int
deriving DecidableEq

/-- A ticket record (model.py:33-43); the store-assigned id is the key in the store. -/
structure Ticket where
  user_id : Nat
  event_id : Nat
  status : TicketStatus
deriving DecidableEq

/-- The persistent store: the three tables keyed by integer id, plus the
next id each table will assign on insert. -/
structure Store where
  users : List (Nat × User)
  events : List (Nat × Event)
  tickets : List (Nat × Ticket)
  nextUserId : Nat
  nextEventId : Nat
  nextTicketId : Nat
deriving DecidableEq

/-- `session.get(Entity, id)`: first record with the given key, if any. -/
def lookupId {α : Type} : List (Nat × α) → Nat → Option α
  | [], _ => none
  | (j, a) :: rest, i => if j = i then some a else lookupId rest i

/-- Mutating the loaded ticket object and committing: every stored entry
with the given key is replaced by the new record. -/
def setTicket : List (Nat × Ticket) → Nat → Ticket → List (Nat × Ticket)
  | [], _, _ => []
  | (k, a) :: rest, tid, t =>
    (if k = tid then (tid, t) else (k, a)) :: setTicket rest tid t

/-- A `JSONResponse`: either an error payload `{"message": ...}` or a
created/updated record, each paired with its HTTP status code. -/
inductive ApiResult where
  | err (code : Nat) (message : String)
  | okUser (code : Nat) (u : User)
  | okEvent (code : Nat) (e : Event)
  | okTicket (code : Nat) (t : Ticket)
deriving DecidableEq

/-- The HTTP status code of a response. -/
def ApiResult.code : ApiResult → Nat
  | .err c _ => c
  | .okUser c _ => c
  | .okEvent c _ => c
  | .okTicket c _ => c

/-- Handler `use_ticket` (main.py:285-321). -/
def use_ticket (s : Store) (ticket_id : Nat) : ApiResult × Store :=
  match lookupId s.tickets ticket_id with
  | none => (ApiResult.err 404 "Ticket not found", s)
  | some t =>
    if t.status = TicketStatus.RESERVED then
      (ApiResult.err 402 "Ticket must be paid to be used", s)
    else if t.status = TicketStatus.USED then
      (ApiResult.err 400 "Ticket is already used", s)
    else if t.status = TicketStatus.CANCELED then
      (ApiResult.err 400 "Ticket is canceled, cannot be used", s)
    else
      let t2 : Ticket := { t with status := TicketStatus.USED }
      (ApiResult.okTicket 200 t2, { s with tickets := setTicket s.tickets ticket_id t2 })

/-- Handler `pay_ticket` (main.py:410-447). -/
def pay_ticket (s : Store) (ticket_id : Nat) : ApiResult × Store :=
  match lookupId s.tickets ticket_id with
  | none => (ApiResult.err 404 "Ticket not found", s)
  | some t =>
    if t.status = TicketStatus.PURCHASED then
      (ApiResult.err 400 "Ticket is already paid for", s)
    else if t.status = TicketStatus.USED then
      (ApiResult.err 400 "Ticket is already used", s)
    else if t.status = TicketStatus.CANCELED then
      (ApiResult.err 400 "Ticket is canceled, cannot be paid", s)
    else
      let t2 : Ticket := { t with status := TicketStatus.PURCHASED }
      (ApiResult.okTicket 200 t2, { s with tickets := setTicket s.tickets ticket_id t2 })

/-- Handler `cancel_ticket` (main.py:459-491). -/
def cancel_ticket (s : Store) (ticket_id : Nat) : ApiResult × Store :=
  match lookupId s.tickets ticket_id with
  | none => (ApiResult.err 404 "Ticket not found", s)
  | some t =>
    if t.status = TicketStatus.CANCELED then
      (ApiResult.err 400 "Ticket is already canceled", s)
    else if t.status = TicketStatus.USED then
      (ApiResult.err 400 "Ticket is already used, cannot be canceled", s)
    else
      let t2 : Ticket := { t with status := TicketStatus.CANCELED }
      (ApiResult.okTicket 200 t2, { s with tickets := setTicket s.tickets ticket_id t2 })

/-- Handler `buy_ticket` (main.py:332-359). -/
def buy_ticket (s : Store) (user_id event_id : Nat) : ApiResult × Store :=
  match lookupId s.users user_id, lookupId s.events event_id with
  | some _, some _ =>
    let t : Ticket := ⟨user_id, event_id, TicketStatus.PURCHASED⟩
    (ApiResult.okTicket 201 t,
      { s with tickets := s.tickets ++ [(s.nextTicketId, t)],
               nextTicketId := s.nextTicketId + 1 })
  | _, _ => (ApiResult.err 404 "User or event not found", s)

/-- Handler `reserve_ticket` (main.py:370-398); note the 200 success code. -/
def reserve_ticket (s : Store) (user_id event_id : Nat) : ApiResult × Store :=
  match lookupId s.users user_id, lookupId s.events event_id with
  | some _, some _ =>
    let t : Ticket := ⟨user_id, event_id, TicketStatus.RESERVED⟩
    (ApiResult.okTicket 200 t,
      { s with tickets := s.tickets ++ [(s.nextTicketId, t)],
               nextTicketId := s.nextTicketId + 1 })
  | _, _ => (ApiResult.err 404 "User or event not found", s)

/-- Handler `create_user` (main.py:102-128).  Its whole body sits inside a
try/except, so a persistence failure (modelled by `commitOk = false`) is
caught and reduced to a 500 response: the result is always `Except.ok`. -/
def create_user (s : Store) (u : User) (commitOk : Bool) :
    Except String (ApiResult × Store) :=
  if u.username = "" then Except.ok (ApiResult.err 400 "Invalid username", s)
  else if commitOk then
    Except.ok (ApiResult.okUser 201 u,
      { s with users := s.users ++ [(s.nextUserId, u)], nextUserId := s.nextUserId + 1 })
  else Except.ok (ApiResult.err 500 "Internal server error", s)

/-- Handler `create_event` (main.py:195-215).  Unlike `create_user` it has
no try/except, so a persistence failure propagates out of the handler,
modelled as `Except.error`. -/
def create_event (s : Store) (e : Event) (commitOk : Bool) :
    Except String (ApiResult × Store) :=
  if e.name = "" then Except.ok (ApiResult.err 400 "Invalid event name", s)
  else if commitOk then
    Except.ok (ApiResult.okEvent 201 e,
      { s with events := s.events ++ [(s.nextEventId, e)], nextEventId := s.nextEventId + 1 })
  else Except.error "unhandled persistence failure"

/-- The three lifecycle operations that act on an existing ticket. -/
inductive TicketOp where
  | pay
  | use
  | cancel
deriving DecidableEq

/-- Dispatch one lifecycle operation on one ticket id. -/
def applyOp (s : Store) (tid : Nat) : TicketOp → ApiResult × Store
  | .pay => pay_ticket s tid
  | .use => use_ticket s tid
  | .cancel => cancel_ticket s tid

/-- Run a sequence of lifecycle operations against the same ticket id,
threading the store. -/
def applyOps (s : Store) (tid : Nat) : List TicketOp → Store
  | [] => s
  | op :: ops => applyOps (applyOp s tid op).2 tid ops

/-- Python's `str.lower()` on the ASCII range: lowercase every character. -/
def strLower (s : String) : String := ⟨s.data.map Char.toLower⟩

/-- `TicketStatus.from_string` (model.py:13-18): lowercase the argument,
then look it up among the enum values `"PURCHASED"`, `"RESERVED"`,
`"CANCELED"`, `"USED"`; a failed lookup yields `none`. -/
def TicketStatus.from_string (s : String) : Option TicketStatus :=
  if strLower s = "PURCHASED" then some TicketStatus.PURCHASED
  else if strLower s = "RESERVED" then some TicketStatus.RESERVED
  else if strLower s = "CANCELED" then some TicketStatus.CANCELED
  else if strLower s = "USED" then some TicketStatus.USED
  else none

/-- A concrete user for witnesses. -/
def sampleUser : User := ⟨"alice", "pw"⟩

/-- A concrete event for witnesses. -/
def sampleEvent : Event := ⟨"concert", 10⟩

/-- A one-user, one-event, one-ticket store whose ticket has the given status. -/
def sampleStore (st : TicketStatus) : Store :=
  ⟨[(1, sampleUser)], [(1, sampleEvent)], [(1, ⟨1, 1, st⟩)], 2, 2, 2⟩

theorem lookupId_setTicket_self (ts : List (Nat × Ticket)) (tid : Nat) (t u : Ticket)
    (h : lookupId ts tid = some u) :
    lookupId (setTicket ts tid t) tid = some t := by
  induction ts with
  | nil => simp [lookupId] at h
  | cons p rest ih =>
    obtain ⟨k, a⟩ := p
    rw [setTicket]
    by_cases hk : k = tid
    · rw [if_pos hk, lookupId, if_pos rfl]
    · rw [if_neg hk, lookupId, if_neg hk]
      rw [lookupId, if_neg hk] at h
      exact ih h

theorem lookupId_setTicket_ne (ts : List (Nat × Ticket)) (tid j : Nat) (t : Ticket)
    (hj : j ≠ tid) :
    lookupId (setTicket ts tid t) j = lookupId ts j := by
  induction ts with
  | nil => rfl
  | cons p rest ih =>
    obtain ⟨k, a⟩ := p
    rw [setTicket]
    by_cases hk : k = tid
    · have htj : ¬tid = j := fun h => hj h.symm
      have hkj : ¬k = j := hk ▸ htj
      rw [if_pos hk, lookupId, if_neg htj, lookupId, if_neg hkj]
      exact ih
    · by_cases hkj : k = j
      · rw [if_neg hk, lookupId, if_pos hkj, lookupId, if_pos hkj]
      · rw [if_neg hk, lookupId, if_neg hkj, lookupId, if_neg hkj]
        exact ih

theorem lookupId_append_fresh {α : Type} (ts : List (Nat × α)) (n : Nat) (a : α)
    (h : lookupId ts n = none) : lookupId (ts ++ [(n, a)]) n = some a := by
  induction ts with
  | nil => rw [List.nil_append, lookupId, if_pos rfl]
  | cons p rest ih =>
    obtain ⟨k, b⟩ := p
    by_cases hk : k = n
    · rw [lookupId, if_pos hk] at h
      exact absurd h (by simp)
    · rw [lookupId, if_neg hk] at h
      rw [List.cons_append, lookupId, if_neg hk]
      exact ih h

/-- C1: for an existing ticket, `use` returns 200 and stores status `USED`
exactly when the current status is `PURCHASED`; on `RESERVED` it returns 402
with message "Ticket must be paid to be used" and leaves the store unchanged;
on `USED` or `CANCELED` it returns 400 and leaves the store unchanged. -/
theorem C1_use_transition (s : Store) (tid : Nat) (t : Ticket)
    (hget : lookupId s.tickets tid = some t) :
    (t.status = TicketStatus.PURCHASED →
      (use_ticket s tid).1 = ApiResult.okTicket 200 { t with status := TicketStatus.USED } ∧
      lookupId (use_ticket s tid).2.tickets tid = some { t with status := TicketStatus.USED }) ∧
    (t.status = TicketStatus.RESERVED →
      use_ticket s tid = (ApiResult.err 402 "Ticket must be paid to be used", s)) ∧
    (t.status = TicketStatus.USED →
      use_ticket s tid = (ApiResult.err 400 "Ticket is already used", s)) ∧
    (t.status = TicketStatus.CANCELED →
      use_ticket s tid = (ApiResult.err 400 "Ticket is canceled, cannot be used", s)) ∧
    ((use_ticket s tid).1.code = 200 ↔ t.status = TicketStatus.PURCHASED) := by
  cases hstat : t.status with
  | PURCHASED =>
    have hset := lookupId_setTicket_self s.tickets tid { t with status := TicketStatus.USED } t hget
    simp [use_ticket, hget, hstat, hset, ApiResult.code]
  | RESERVED => simp [use_ticket, hget, hstat, ApiResult.code]
  | USED => simp [use_ticket, hget, hstat, ApiResult.code]
  | CANCELED => simp [use_ticket, hget, hstat, ApiResult.code]

theorem C1_use_transition_witness :
    lookupId (sampleStore TicketStatus.RESERVED).tickets 1
      = some ⟨1, 1, TicketStatus.RESERVED⟩ ∧
    use_ticket (sampleStore TicketStatus.RESERVED) 1
      = (ApiResult.err 402 "Ticket must be paid to be used", sampleStore TicketStatus.RESERVED) :=
  ⟨by decide,
   (C1_use_transition (sampleStore TicketStatus.RESERVED) 1
     ⟨1, 1, TicketStatus.RESERVED⟩ (by decide)).2.1 rfl⟩

/-- C2: for an existing ticket, `pay` returns 200 and stores status
`PURCHASED` exactly when the current status is `RESERVED`; on `PURCHASED`,
`USED` or `CANCELED` it returns 400 with the state-specific conflict message
and leaves the store unchanged. -/
theorem C2_pay_transition (s : Store) (tid : Nat) (t : Ticket)
    (hget : lookupId s.tickets tid = some t) :
    (t.status = TicketStatus.RESERVED →
      (pay_ticket s tid).1 = ApiResult.okTicket 200 { t with status := TicketStatus.PURCHASED } ∧
      lookupId (pay_ticket s tid).2.tickets tid = some { t with status := TicketStatus.PURCHASED }) ∧
    (t.status = TicketStatus.PURCHASED →
      pay_ticket s tid = (ApiResult.err 400 "Ticket is already paid for", s)) ∧
    (t.status = TicketStatus.USED →
      pay_ticket s tid = (ApiResult.err 400 "Ticket is already used", s)) ∧
    (t.status = TicketStatus.CANCELED →
      pay_ticket s tid = (ApiResult.err 400 "Ticket is canceled, cannot be paid", s)) ∧
    ((pay_ticket s tid).1.code = 200 ↔ t.status = TicketStatus.RESERVED) := by
  cases hstat : t.status with
  | RESERVED =>
    have hset := lookupId_setTicket_self s.tickets tid { t with status := TicketStatus.PURCHASED } t hget
    simp [pay_ticket, hget, hstat, hset, ApiResult.code]
  | PURCHASED => simp [pay_ticket, hget, hstat, ApiResult.code]
  | USED => simp [pay_ticket, hget, hstat, ApiResult.code]
  | CANCELED => simp [pay_ticket, hget, hstat, ApiResult.code]

theorem C2_pay_transition_witness :
    lookupId (sampleStore TicketStatus.RESERVED).tickets 1
      = some ⟨1, 1, TicketStatus.RESERVED⟩ ∧
    (pay_ticket (sampleStore TicketStatus.RESERVED) 1).1
      = ApiResult.okTicket 200 ⟨1, 1, TicketStatus.PURCHASED⟩ :=
  ⟨by decide,
   ((C2_pay_transition (sampleStore TicketStatus.RESERVED) 1
     ⟨1, 1, TicketStatus.RESERVED⟩ (by decide)).1 rfl).1⟩

/-- C3: for an existing ticket, `cancel` returns 200 and stores status
`CANCELED` when the current status is `PURCHASED` or `RESERVED`; on
`CANCELED` it returns 400 with "Ticket is already canceled", on `USED` 400
with "Ticket is already used, cannot be canceled", leaving the store
unchanged in both cases. -/
theorem C3_cancel_transition (s : Store) (tid : Nat) (t : Ticket)
    (hget : lookupId s.tickets tid = some t) :
    ((t.status = TicketStatus.PURCHASED ∨ t.status = TicketStatus.RESERVED) →
      (cancel_ticket s tid).1 = ApiResult.okTicket 200 { t with status := TicketStatus.CANCELED } ∧
      lookupId (cancel_ticket s tid).2.tickets tid = some { t with status := TicketStatus.CANCELED }) ∧
    (t.status = TicketStatus.CANCELED →
      cancel_ticket s tid = (ApiResult.err 400 "Ticket is already canceled", s)) ∧
    (t.status = TicketStatus.USED →
      cancel_ticket s tid = (ApiResult.err 400 "Ticket is already used, cannot be canceled", s)) := by
  cases hstat : t.status with
  | PURCHASED =>
    have hset := lookupId_setTicket_self s.tickets tid { t with status := TicketStatus.CANCELED } t hget
    simp [cancel_ticket, hget, hstat, hset]
  | RESERVED =>
    have hset := lookupId_setTicket_self s.tickets tid { t with status := TicketStatus.CANCELED } t hget
    simp [cancel_ticket, hget, hstat, hset]
  | USED => simp [cancel_ticket, hget, hstat]
  | CANCELED => simp [cancel_ticket, hget, hstat]

theorem C3_cancel_transition_witness :
    lookupId (sampleStore TicketStatus.RESERVED).tickets 1
      = some ⟨1, 1, TicketStatus.RESERVED⟩ ∧
    (cancel_ticket (sampleStore TicketStatus.RESERVED) 1).1
      = ApiResult.okTicket 200 ⟨1, 1, TicketStatus.CANCELED⟩ :=
  ⟨by decide,
   ((C3_cancel_transition (sampleStore TicketStatus.RESERVED) 1
     ⟨1, 1, TicketStatus.RESERVED⟩ (by decide)).1 (Or.inr rfl)).1⟩

theorem terminal_step (s : Store) (tid : Nat) (t : Ticket)
    (hget : lookupId s.tickets tid = some t)
    (hterm : t.status = TicketStatus.CANCELED ∨ t.status = TicketStatus.USED)
    (op : TicketOp) :
    (applyOp s tid op).1.code = 400 ∧ (applyOp s tid op).2 = s := by
  rcases hterm with hstat | hstat <;> cases op <;>
    simp [applyOp, pay_ticket, use_ticket, cancel_ticket, hget, hstat, ApiResult.code]

/-- C4: terminal states are absorbing.  If a stored ticket is `CANCELED` or
`USED`, every sequence of pay, use and cancel operations on it leaves the
store (hence the ticket's status) unchanged, and every single such
operation is rejected with status code 400. -/
theorem C4_terminal_absorbing (s : Store) (tid : Nat) (t : Ticket)
    (hget : lookupId s.tickets tid = some t)
    (hterm : t.status = TicketStatus.CANCELED ∨ t.status = TicketStatus.USED) :
    (∀ ops : List TicketOp, applyOps s tid ops = s) ∧
    (∀ op : TicketOp, (applyOp s tid op).1.code = 400 ∧ (applyOp s tid op).2 = s) := by
  refine ⟨?_, terminal_step s tid t hget hterm⟩
  intro ops
  induction ops with
  | nil => rfl
  | cons op rest ih =>
    rw [applyOps, (terminal_step s tid t hget hterm op).2]
    exact ih

theorem C4_terminal_absorbing_witness :
    lookupId (sampleStore TicketStatus.USED).tickets 1 = some ⟨1, 1, TicketStatus.USED⟩ ∧
    applyOps (sampleStore TicketStatus.USED) 1 [TicketOp.pay, TicketOp.use, TicketOp.cancel]
      = sampleStore TicketStatus.USED :=
  ⟨by decide,
   (C4_terminal_absorbing (sampleStore TicketStatus.USED) 1 ⟨1, 1, TicketStatus.USED⟩
     (by decide) (Or.inr rfl)).1 [TicketOp.pay, TicketOp.use, TicketOp.cancel]⟩

/-- C5: with an existing user and event, `buy` creates a ticket whose
initial status is `PURCHASED` and answers 201, while `reserve` creates a
ticket whose initial status is `RESERVED`. -/
theorem C5_initial_status (s : Store) (uid eid : Nat) (u : User) (e : Event)
    (hu : lookupId s.users uid = some u) (he : lookupId s.events eid = some e)
    (hfresh : lookupId s.tickets s.nextTicketId = none) :
    (buy_ticket s uid eid).1 = ApiResult.okTicket 201 ⟨uid, eid, TicketStatus.PURCHASED⟩ ∧
    lookupId (buy_ticket s uid eid).2.tickets s.nextTicketId
      = some ⟨uid, eid, TicketStatus.PURCHASED⟩ ∧
    (reserve_ticket s uid eid).1 = ApiResult.okTicket 200 ⟨uid, eid, TicketStatus.RESERVED⟩ ∧
    lookupId (reserve_ticket s uid eid).2.tickets s.nextTicketId
      = some ⟨uid, eid, TicketStatus.RESERVED⟩ := by
  have h1 := lookupId_append_fresh s.tickets s.nextTicketId
    (⟨uid, eid, TicketStatus.PURCHASED⟩ : Ticket) hfresh
  have h2 := lookupId_append_fresh s.tickets s.nextTicketId
    (⟨uid, eid, TicketStatus.RESERVED⟩ : Ticket) hfresh
  simp [buy_ticket, reserve_ticket, hu, he, h1, h2]

theorem C5_initial_status_witness :
    lookupId (sampleStore TicketStatus.USED).users 1 = some sampleUser ∧
    lookupId (sampleStore TicketStatus.USED).events 1 = some sampleEvent ∧
    lookupId (sampleStore TicketStatus.USED).tickets (sampleStore TicketStatus.USED).nextTicketId
      = none ∧
    (buy_ticket (sampleStore TicketStatus.USED) 1 1).1
      = ApiResult.okTicket 201 ⟨1, 1, TicketStatus.PURCHASED⟩ :=
  ⟨by decide, by decide, by decide,
   (C5_initial_status (sampleStore TicketStatus.USED) 1 1 sampleUser sampleEvent
     (by decide) (by decide) (by decide)).1⟩

/-- C6: a buy or reserve request whose user id or event id (or both) does
not resolve answers 404 and leaves the store unchanged, so no ticket
record is created. -/
theorem C6_create_missing (s : Store) (uid eid : Nat)
    (h : lookupId s.users uid = none ∨ lookupId s.events eid = none) :
    buy_ticket s uid eid = (ApiResult.err 404 "User or event not found", s) ∧
    reserve_ticket s uid eid = (ApiResult.err 404 "User or event not found", s) := by
  rcases h with h | h
  · simp [buy_ticket, reserve_ticket, h]
  · rcases hu : lookupId s.users uid with _ | u <;>
      simp [buy_ticket, reserve_ticket, hu, h]

theorem C6_create_missing_witness :
    lookupId (sampleStore TicketStatus.USED).users 7 = none ∧
    buy_ticket (sampleStore TicketStatus.USED) 7 1
      = (ApiResult.err 404 "User or event not found", sampleStore TicketStatus.USED) :=
  ⟨by decide,
   (C6_create_missing (sampleStore TicketStatus.USED) 7 1 (Or.inl (by decide))).1⟩

theorem applyOp_shape (s : Store) (tid : Nat) (op : TicketOp) :
    ((applyOp s tid op).2 = s ∧ (applyOp s tid op).1.code ≠ 200) ∨
    (∃ t st, lookupId s.tickets tid = some t ∧
      applyOp s tid op = (ApiResult.okTicket 200 { t with status := st },
        { s with tickets := setTicket s.tickets tid { t with status := st } })) := by
  cases op with
  | pay =>
    rcases hget : lookupId s.tickets tid with _ | t
    · exact Or.inl (by simp [applyOp, pay_ticket, hget, ApiResult.code])
    · cases hstat : t.status with
      | RESERVED =>
        exact Or.inr ⟨t, TicketStatus.PURCHASED, rfl,
          by simp [applyOp, pay_ticket, hget, hstat]⟩
      | PURCHASED => exact Or.inl (by simp [applyOp, pay_ticket, hget, hstat, ApiResult.code])
      | USED => exact Or.inl (by simp [applyOp, pay_ticket, hget, hstat, ApiResult.code])
      | CANCELED => exact Or.inl (by simp [applyOp, pay_ticket, hget, hstat, ApiResult.code])
  | use =>
    rcases hget : lookupId s.tickets tid with _ | t
    · exact Or.inl (by simp [applyOp, use_ticket, hget, ApiResult.code])
    · cases hstat : t.status with
      | PURCHASED =>
        exact Or.inr ⟨t, TicketStatus.USED, rfl,
          by simp [applyOp, use_ticket, hget, hstat]⟩
      | RESERVED => exact Or.inl (by simp [applyOp, use_ticket, hget, hstat, ApiResult.code])
      | USED => exact Or.inl (by simp [applyOp, use_ticket, hget, hstat, ApiResult.code])
      | CANCELED => exact Or.inl (by simp [applyOp, use_ticket, hget, hstat, ApiResult.code])
  | cancel =>
    rcases hget : lookupId s.tickets tid with _ | t
    · exact Or.inl (by simp [applyOp, cancel_ticket, hget, ApiResult.code])
    · cases hstat : t.status with
      | PURCHASED =>
        exact Or.inr ⟨t, TicketStatus.CANCELED, rfl,
          by simp [applyOp, cancel_ticket, hget, hstat]⟩
      | RESERVED =>
        exact Or.inr ⟨t, TicketStatus.CANCELED, rfl,
          by simp [applyOp, cancel_ticket, hget, hstat]⟩
      | USED => exact Or.inl (by simp [applyOp, cancel_ticket, hget, hstat, ApiResult.code])
      | CANCELED => exact Or.inl (by simp [applyOp, cancel_ticket, hget, hstat, ApiResult.code])

/-- C7: each lifecycle operation (pay, use, cancel) touches nothing but
the status of the one addressed ticket: the user and event tables and the
id counters are unchanged, every other ticket is unchanged, the addressed
ticket keeps its user and event references, and on every rejection the
whole store is unchanged. -/
theorem C7_lifecycle_frame (s : Store) (tid : Nat) (op : TicketOp) :
    (applyOp s tid op).2.users = s.users ∧
    (applyOp s tid op).2.events = s.events ∧
    (applyOp s tid op).2.nextUserId = s.nextUserId ∧
    (applyOp s tid op).2.nextEventId = s.nextEventId ∧
    (applyOp s tid op).2.nextTicketId = s.nextTicketId ∧
    (∀ j, ¬j = tid → lookupId (applyOp s tid op).2.tickets j = lookupId s.tickets j) ∧
    (∀ u v : Ticket, lookupId s.tickets tid = some u →
      lookupId (applyOp s tid op).2.tickets tid = some v →
      v.user_id = u.user_id ∧ v.event_id = u.event_id) ∧
    ((applyOp s tid op).1.code ≠ 200 → (applyOp s tid op).2 = s) := by
  rcases applyOp_shape s tid op with ⟨hs, _⟩ | ⟨t, st, hget, heq⟩
  · rw [hs]
    refine ⟨rfl, rfl, rfl, rfl, rfl, fun j hj => rfl, ?_, fun h => rfl⟩
    intro u v hu hv
    rw [hu] at hv
    obtain rfl := Option.some.inj hv
    exact ⟨rfl, rfl⟩
  · rw [heq]
    refine ⟨rfl, rfl, rfl, rfl, rfl,
      fun j hj => lookupId_setTicket_ne s.tickets tid j _ hj, ?_, ?_⟩
    · intro u v hu hv
      rw [hget] at hu
      obtain rfl := Option.some.inj hu
      rw [lookupId_setTicket_self s.tickets tid { t with status := st } t hget] at hv
      obtain rfl := Option.some.inj hv
      exact ⟨rfl, rfl⟩
    · intro hcode
      exact absurd rfl hcode

theorem C7_lifecycle_frame_witness :
    lookupId (applyOp (sampleStore TicketStatus.RESERVED) 1 TicketOp.pay).2.tickets 2
      = lookupId (sampleStore TicketStatus.RESERVED).tickets 2 :=
  (C7_lifecycle_frame (sampleStore TicketStatus.RESERVED) 1 TicketOp.pay).2.2.2.2.2.1 2
    (by decide)

/-- C8 counterexample: a persistence failure during `create_event` is not
reduced to a 500 response; it escapes the handler as an uncaught fault, so
not every operation catches persistence failures. -/
theorem C8_counterexample :
    create_event (sampleStore TicketStatus.USED) sampleEvent false
      = Except.error "unhandled persistence failure" := by
  simp [create_event, sampleEvent]

/-- C8 (amended): only `create_user` wraps its body in an exception
handler, so it always produces a response (a 500 on persistence failure),
while `create_event` with a valid name propagates a persistence failure
uncaught past the handler. -/
theorem C8_error_propagation (s : Store) (u : User) (e : Event) (b : Bool)
    (he : ¬e.name = "") :
    (∃ r, create_user s u b = Except.ok r) ∧
    create_event s e false = Except.error "unhandled persistence failure" := by
  refine ⟨?_, by simp [create_event, he]⟩
  by_cases hu : u.username = "" <;> cases b <;> simp [create_user, hu]

theorem C8_error_propagation_witness :
    ¬sampleEvent.name = "" ∧
    (∃ r, create_user (sampleStore TicketStatus.USED) sampleUser false = Except.ok r) ∧
    create_event (sampleStore TicketStatus.USED) sampleEvent false
      = Except.error "unhandled persistence failure" :=
  ⟨by decide,
   (C8_error_propagation (sampleStore TicketStatus.USED) sampleUser sampleEvent false
     (by decide)).1,
   (C8_error_propagation (sampleStore TicketStatus.USED) sampleUser sampleEvent false
     (by decide)).2⟩

/-- C9 counterexample: with event 1 present but user 1 absent, `buy`
answers 404 with message "User or event not found", and the message is
identical when user 1 is present but event 1 absent, so the 404 message
does not name which specific entity is missing. -/
theorem C9_counterexample :
    lookupId (Store.mk [] [(1, sampleEvent)] [] 1 2 1).users 1 = none ∧
    lookupId (Store.mk [] [(1, sampleEvent)] [] 1 2 1).events 1 = some sampleEvent ∧
    lookupId (Store.mk [(1, sampleUser)] [] [] 2 1 1).users 1 = some sampleUser ∧
    lookupId (Store.mk [(1, sampleUser)] [] [] 2 1 1).events 1 = none ∧
    (buy_ticket (Store.mk [] [(1, sampleEvent)] [] 1 2 1) 1 1).1
      = ApiResult.err 404 "User or event not found" ∧
    (buy_ticket (Store.mk [(1, sampleUser)] [] [] 2 1 1) 1 1).1
      = ApiResult.err 404 "User or event not found" := by
  decide

/-- C9 (amended): every NotFound failure answers 404 with a message naming
the kind of entity: the ticket operations say "Ticket not found", while
`buy` and `reserve` answer the fixed combined message
"User or event not found" whichever of the two is missing. -/
theorem C9_notfound_messages (s : Store) (uid eid tid : Nat)
    (ht : lookupId s.tickets tid = none)
    (hmiss : lookupId s.users uid = none ∨ lookupId s.events eid = none) :
    use_ticket s tid = (ApiResult.err 404 "Ticket not found", s) ∧
    pay_ticket s tid = (ApiResult.err 404 "Ticket not found", s) ∧
    cancel_ticket s tid = (ApiResult.err 404 "Ticket not found", s) ∧
    (buy_ticket s uid eid).1 = ApiResult.err 404 "User or event not found" ∧
    (reserve_ticket s uid eid).1 = ApiResult.err 404 "User or event not found" := by
  refine ⟨by simp [use_ticket, ht], by simp [pay_ticket, ht],
    by simp [cancel_ticket, ht], ?_, ?_⟩ <;>
  · rcases hmiss with h | h
    · simp [buy_ticket, reserve_ticket, h]
    · rcases hu : lookupId s.users uid with _ | u <;>
        simp [buy_ticket, reserve_ticket, hu, h]

theorem C9_notfound_messages_witness :
    lookupId (sampleStore TicketStatus.USED).tickets 9 = none ∧
    lookupId (sampleStore TicketStatus.USED).users 7 = none ∧
    use_ticket (sampleStore TicketStatus.USED) 9
      = (ApiResult.err 404 "Ticket not found", sampleStore TicketStatus.USED) :=
  ⟨by decide, by decide,
   (C9_notfound_messages (sampleStore TicketStatus.USED) 7 1 9 (by decide)
     (Or.inl (by decide))).1⟩

theorem char_toLower_toNat_ne (d : Char) (k : Nat) (h65 : 65 ≤ k) (h90 : k ≤ 90) :
    (Char.toLower d).toNat ≠ k := by
  unfold Char.toLower
  by_cases h : d.toNat ≥ 65 ∧ d.toNat ≤ 90
  · rw [if_pos h]
    have hval : (d.toNat + 32).isValidChar := Or.inl (by omega)
    have hofn : (Char.ofNat (d.toNat + 32)).toNat = d.toNat + 32 := by
      unfold Char.ofNat
      rw [dif_pos hval]
      rfl
    rw [hofn]
    omega
  · rw [if_neg h]
    intro hk
    exact h ⟨by omega, by omega⟩

theorem char_toLower_ne (d c : Char) (h65 : 65 ≤ c.toNat) (h90 : c.toNat ≤ 90) :
    Char.toLower d ≠ c := fun h =>
  char_toLower_toNat_ne d c.toNat h65 h90 (congrArg Char.toNat h)

theorem strLower_ne (s t : String) (c : Char) (cs : List Char)
    (ht : t.data = c :: cs) (h65 : 65 ≤ c.toNat) (h90 : c.toNat ≤ 90) :
    strLower s ≠ t := by
  intro heq
  have hd : s.data.map Char.toLower = c :: cs := by
    have h2 := congrArg String.data heq
    rw [ht] at h2
    exact h2
  cases hs : s.data with
  | nil => rw [hs] at hd; exact absurd hd (by simp)
  | cons a as =>
    rw [hs] at hd
    rw [List.map_cons] at hd
    injection hd with h1 h2
    exact char_toLower_ne a c h65 h90 h1

/-- C10: `TicketStatus.from_string` lowercases its argument before the
lookup while all four enumeration values are uppercase strings, so it
returns `none` on every input, including the exact status names. -/
theorem C10_from_string_none (s : String) : TicketStatus.from_string s = none := by
  unfold TicketStatus.from_string
  rw [if_neg (strLower_ne s "PURCHASED" 'P' ['U', 'R', 'C', 'H', 'A', 'S', 'E', 'D']
        rfl (by decide) (by decide)),
      if_neg (strLower_ne s "RESERVED" 'R' ['E', 'S', 'E', 'R', 'V', 'E', 'D']
        rfl (by decide) (by decide)),
      if_neg (strLower_ne s "CANCELED" 'C' ['A', 'N', 'C', 'E', 'L', 'E', 'D']
        rfl (by decide) (by decide)),
      if_neg (strLower_ne s "USED" 'U' ['S', 'E', 'D']
        rfl (by decide) (by decide))]

